import Mathlib

/-!
Verification of the message service in `netlify/functions/server.js`.

The service stores a single text message in a SQLite table `messages`
(`id INTEGER PRIMARY KEY, content TEXT NOT NULL`).  Only the row with
`id = 1` is ever written (the default insert uses id 1, and the POST
handler upserts id 1), so the table state is faithfully represented by
an `Option String`: the content of row 1, or `none` when the row is
absent.  Database failures (open/read/write errors and a rejected
initialization promise) are modelled by explicit `Option String`
parameters carrying the underlying error message, mirroring the
`(err, row)` callbacks and the `catch` blocks of the handlers.
-/

/-- A JavaScript value, as far as the `newMessage` field of a POST body
is concerned: a string, `null`, `undefined` (missing field), a number,
or a boolean.  Only the `str` case passes `typeof newMessage === 'string'`. -/
inductive JsValue where
  | str (s : String)
  | null
  | undefined
  | num (n : Int)
  | boolean (b : Bool)
deriving DecidableEq

/-- State of the message store: the `content` of the row with `id = 1`
in the `messages` table, or `none` when that row does not exist. -/
structure Store where
  message : Option String
deriving DecidableEq

/-- The fixed default inserted by `initializeDb` when the table is empty. -/
def defaultMessage : String := "Hello Full Stack World!"

/-- Embeds `initializeDb` (server.js): after connecting and creating the
table if needed, it runs `SELECT COUNT(*) FROM messages`; if the count is 0
it inserts `(1, "Hello Full Stack World!")`, otherwise it leaves the table
untouched.  Since row 1 is the only row the program ever writes, the table
is empty exactly when `message = none`. -/
def initDb (s : Store) : Store :=
  match s.message with
  | some _ => s
  | none => { message := some defaultMessage }

/-- A JSON response body, one constructor per body shape the handlers emit. -/
inductive Body where
  | message (content : String)
  | error (error details : String)
  | success (status message updatedMessage : String)
deriving DecidableEq

/-- An HTTP response: status code and JSON body. -/
structure Response where
  status : Nat
  body : Body
deriving DecidableEq

/-- An HTTP request as seen by the Express handlers.  The GET handler
never reads any of these fields. -/
structure Request where
  headers : List (String × String)
  query : List (String × String)
deriving DecidableEq

/-- Embeds JavaScript `String.prototype.trim` as used by the handler:
strip leading and trailing whitespace characters. -/
def jsTrim (s : String) : String :=
  ⟨((s.data.dropWhile Char.isWhitespace).reverse.dropWhile
      Char.isWhitespace).reverse⟩

/-- The 400 body produced by the POST handler when validation fails. -/
def validationError : Body :=
  .error "Bad Request" "newMessage is required and must be a non-empty string."

/-- Embeds `app.get('/api/message')` (server.js).  `initFail` is the error
message of a rejected `dbInitializationPromise` (caught by the handler's
`catch` block); `readFail` is the error of the `db.get` callback.  On a
successful read it returns 200 with the row content, or 404 when row 1 is
missing.  The handler only issues a SELECT, so the store is returned
unchanged. -/
def getHandler (req : Request) (s : Store) (initFail readFail : Option String) :
    Store × Response :=
  match initFail with
  | some e => (s, ⟨500, .error "Failed to retrieve message" e⟩)
  | none =>
    match readFail with
    | some e => (s, ⟨500, .error "Failed to retrieve message" e⟩)
    | none =>
      match s.message with
      | some content => (s, ⟨200, .message content⟩)
      | none =>
        (s, ⟨404, .error "Message not found"
          "No message found with ID 1. Database might be uninitialized or corrupted."⟩)

/-- Embeds `app.post('/api/message')` (server.js).  `body` is the
`newMessage` field of the parsed JSON body; `initFail` is the error of a
rejected `dbInitializationPromise`; `writeFail` is the error of the
`db.run` callback for the `INSERT OR REPLACE`.  Validation follows the
source test `typeof newMessage !== 'string' || newMessage.trim().length === 0`. -/
def postHandler (req : Request) (s : Store) (body : JsValue)
    (initFail writeFail : Option String) : Store × Response :=
  match initFail with
  | some e => (s, ⟨500, .error "Failed to update message" e⟩)
  | none =>
    match body with
    | .str m =>
      if (jsTrim m).length = 0 then
        (s, ⟨400, validationError⟩)
      else
        match writeFail with
        | some e => (s, ⟨500, .error "Failed to update message" e⟩)
        | none =>
          ({ message := some (jsTrim m) },
            ⟨200, .success "success" "Message updated successfully" (jsTrim m)⟩)
    | _ => (s, ⟨400, validationError⟩)

/-- The source's validation predicate on the `newMessage` field:
true exactly when the value is a string that is non-empty after trimming. -/
def isValidNewMessage : JsValue → Bool
  | .str m => !((jsTrim m).length = 0)
  | _ => false

/-- The store invariant of the spec: exactly one message value exists and
it is non-empty. -/
def storeInv (s : Store) : Prop :=
  ∃ v, s.message = some v ∧ v ≠ ""

/-- A string whose length is nonzero is not the empty string. -/
theorem length_ne_zero_ne_empty (t : String) (h : t.length ≠ 0) : t ≠ "" :=
  fun he => h (by rw [he]; rfl)

/-- Claim C1: for every string `s` that is non-empty after trimming, a POST
with body `{ newMessage: s }` followed by a GET returns exactly `s.trim()`
as the message: the store holds the trimmed value set by the last
successful write. -/
theorem c1_post_get_round_trip (req1 req2 : Request) (s : Store) (m : String)
    (h : (jsTrim m).length ≠ 0) :
    (getHandler req2 (postHandler req1 s (.str m) none none).1 none none).2 =
      ⟨200, .message (jsTrim m)⟩ := by
  simp [postHandler, getHandler, h]

/-- Claim C1 witness at `s = "  Hi there  "` on a fresh store. -/
theorem c1_post_get_round_trip_witness :
    (getHandler ⟨[], []⟩
      (postHandler ⟨[], []⟩ ⟨none⟩ (.str "  Hi there  ") none none).1 none none).2 =
      ⟨200, .message "Hi there"⟩ :=
  c1_post_get_round_trip ⟨[], []⟩ ⟨[], []⟩ ⟨none⟩ "  Hi there  " (by decide)

/-- Claim C2: a POST whose `newMessage` is the empty string, whitespace-only,
`null`, missing, or any non-string value responds 400 with body
`{ error: "Bad Request", details }` and leaves the store unchanged; the
write is never issued, so the result does not depend on the write outcome. -/
theorem c2_invalid_post_rejected (req : Request) (s : Store) (v : JsValue)
    (writeFail : Option String) (h : isValidNewMessage v = false) :
    postHandler req s v none writeFail = (s, ⟨400, validationError⟩) := by
  cases v with
  | str m =>
    simp [isValidNewMessage] at h
    simp [postHandler, h]
  | _ => simp [postHandler]

/-- Claim C2 witness at `newMessage = "   "` (whitespace-only), even when the
write medium would fail. -/
theorem c2_invalid_post_rejected_witness :
    postHandler ⟨[], []⟩ ⟨some "keep"⟩ (.str "   ") none (some "disk full") =
      (⟨some "keep"⟩, ⟨400, validationError⟩) :=
  c2_invalid_post_rejected ⟨[], []⟩ ⟨some "keep"⟩ (.str "   ") (some "disk full")
    (by decide)

/-- Claim C3: on a store where no write has ever happened, after
initialization completes, GET returns 200 with body
`{ "message": "Hello Full Stack World!" }`. -/
theorem c3_fresh_store_default (req : Request) :
    (getHandler req (initDb ⟨none⟩) none none).2 =
      ⟨200, .message "Hello Full Stack World!"⟩ := by
  simp [initDb, getHandler, defaultMessage]

/-- Claim C4: every store failure path — failed initialization in GET,
failed read, failed initialization in POST, failed write on a valid
message — responds 500 with both `error` and `details` populated with the
underlying failure message, never 200. -/
theorem c4_failures_map_to_500 (req : Request) (s : Store) (b : JsValue)
    (writeFail : Option String) (e : String) :
    (getHandler req s (some e) writeFail).2 =
        ⟨500, .error "Failed to retrieve message" e⟩ ∧
    (getHandler req s none (some e)).2 =
        ⟨500, .error "Failed to retrieve message" e⟩ ∧
    (postHandler req s b (some e) writeFail).2 =
        ⟨500, .error "Failed to update message" e⟩ ∧
    (∀ m : String, (jsTrim m).length ≠ 0 →
      (postHandler req s (.str m) none (some e)).2 =
        ⟨500, .error "Failed to update message" e⟩) := by
  refine ⟨rfl, rfl, rfl, fun m hm => ?_⟩
  simp [postHandler, hm]

/-- Claim C4 witness at a concrete failure message and valid message. -/
theorem c4_failures_map_to_500_witness :
    (getHandler ⟨[], []⟩ ⟨some "x"⟩ (some "io error") none).2 =
        ⟨500, .error "Failed to retrieve message" "io error"⟩ ∧
    (postHandler ⟨[], []⟩ ⟨some "x"⟩ (.str "Hi") none (some "io error")).2 =
        ⟨500, .error "Failed to update message" "io error"⟩ :=
  ⟨(c4_failures_map_to_500 ⟨[], []⟩ ⟨some "x"⟩ .null none "io error").1,
   (c4_failures_map_to_500 ⟨[], []⟩ ⟨some "x"⟩ .null none "io error").2.2.2
     "Hi" (by decide)⟩

/-- Claim C5: initialization is idempotent with respect to stored content:
on every state in which a value was already set (default or written),
running it again leaves the store unchanged. -/
theorem c5_init_idempotent (s : Store) (v : String) (h : s.message = some v) :
    initDb s = s := by
  unfold initDb
  rw [h]

/-- Claim C5 witness: a second initialization does not reset a written value. -/
theorem c5_init_idempotent_witness :
    initDb ⟨some "written by setCurrent"⟩ = ⟨some "written by setCurrent"⟩ :=
  c5_init_idempotent ⟨some "written by setCurrent"⟩ "written by setCurrent" rfl

/-- Claim C6: a POST with a valid `newMessage` whose write succeeds responds
200 with body exactly
`{ status: "success", message: "Message updated successfully", updatedMessage: t }`
where `t` is the trimmed input, and stores `t`; the write is an upsert,
succeeding for every prior store state, row present or not. -/
theorem c6_valid_post_success (req : Request) (s : Store) (m : String)
    (h : (jsTrim m).length ≠ 0) :
    postHandler req s (.str m) none none =
      (⟨some (jsTrim m)⟩,
        ⟨200, .success "success" "Message updated successfully" (jsTrim m)⟩) := by
  simp [postHandler, h]

/-- Claim C6 witness on a store with no prior row (the insert half of the
upsert). -/
theorem c6_valid_post_success_witness :
    postHandler ⟨[], []⟩ ⟨none⟩ (.str "Hi there") none none =
      (⟨some "Hi there"⟩,
        ⟨200, .success "success" "Message updated successfully" "Hi there"⟩) :=
  c6_valid_post_success ⟨[], []⟩ ⟨none⟩ "Hi there" (by decide)

/-- Claim C7: when the read succeeds but no message row exists, GET responds
404 with a body carrying an `error` field and a `details` field describing
the missing row. -/
theorem c7_missing_row_404 (req : Request) (s : Store) (h : s.message = none) :
    (getHandler req s none none).2 =
      ⟨404, .error "Message not found"
        "No message found with ID 1. Database might be uninitialized or corrupted."⟩ := by
  simp [getHandler, h]

/-- Claim C7 witness on the empty store. -/
theorem c7_missing_row_404_witness :
    (getHandler ⟨[], []⟩ ⟨none⟩ none none).2 =
      ⟨404, .error "Message not found"
        "No message found with ID 1. Database might be uninitialized or corrupted."⟩ :=
  c7_missing_row_404 ⟨[], []⟩ ⟨none⟩ rfl

/-- Claim C8: initialization on an empty store establishes the invariant
that exactly one non-empty message value exists, and every operation —
re-initialization, GET, and POST with any body and any failure outcome —
preserves it: the default is non-empty and every stored write is the trim
of a string validated non-empty after trimming. -/
theorem c8_invariant_preserved (req : Request) (s : Store) (b : JsValue)
    (initFail writeFail : Option String) (h : storeInv s) :
    storeInv (initDb ⟨none⟩) ∧
    storeInv (initDb s) ∧
    storeInv (getHandler req s initFail writeFail).1 ∧
    storeInv (postHandler req s b initFail writeFail).1 := by
  obtain ⟨v, hv, hne⟩ := h
  refine ⟨⟨defaultMessage, rfl, by decide⟩, ?_, ?_, ?_⟩
  · unfold initDb
    rw [hv]
    exact ⟨v, hv, hne⟩
  · cases initFail with
    | some e => exact ⟨v, hv, hne⟩
    | none =>
      cases writeFail with
      | some e => exact ⟨v, hv, hne⟩
      | none =>
        unfold getHandler
        rw [hv]
        exact ⟨v, hv, hne⟩
  · cases initFail with
    | some e => exact ⟨v, hv, hne⟩
    | none =>
      cases b with
      | str m =>
        by_cases hm : (jsTrim m).length = 0
        · simp [postHandler, hm]
          exact ⟨v, hv, hne⟩
        · cases writeFail with
          | some e =>
            simp [postHandler, hm]
            exact ⟨v, hv, hne⟩
          | none =>
            simp [postHandler, hm]
            exact ⟨jsTrim m, rfl, length_ne_zero_ne_empty (jsTrim m) hm⟩
      | null => exact ⟨v, hv, hne⟩
      | undefined => exact ⟨v, hv, hne⟩
      | num n => exact ⟨v, hv, hne⟩
      | boolean x => exact ⟨v, hv, hne⟩

/-- Claim C8 witness: the invariant holds after a successful POST on an
initialized store. -/
theorem c8_invariant_preserved_witness :
    storeInv (postHandler ⟨[], []⟩ ⟨some "Hello Full Stack World!"⟩
      (.str "B") none none).1 :=
  (c8_invariant_preserved ⟨[], []⟩ ⟨some "Hello Full Stack World!"⟩ (.str "B")
    none none ⟨"Hello Full Stack World!", rfl, by decide⟩).2.2.2

/-- Claim C9: GET never mutates the store: for every store state, request
and failure outcome, the state after the GET handler equals the state
before it. -/
theorem c9_get_no_mutation (req : Request) (s : Store)
    (initFail readFail : Option String) :
    (getHandler req s initFail readFail).1 = s := by
  unfold getHandler
  cases initFail with
  | some e => rfl
  | none =>
    cases readFail with
    | some e => rfl
    | none =>
      cases h : s.message with
      | some content => simp
      | none => simp

/-- Claim C10: GET is deterministic in the store state: two GET requests
against the same store state under the same store outcomes produce the same
status and body, whatever the requests contain — the handler reads nothing
from the request. -/
theorem c10_get_deterministic (req1 req2 : Request) (s : Store)
    (initFail readFail : Option String) :
    getHandler req1 s initFail readFail = getHandler req2 s initFail readFail := by
  unfold getHandler
  rfl
